import Mathlib

/-!
Verification of the emulate-bluetooth-hid repository.

The development shallowly embeds the two source files:
  * `src/keyboard/mouse_client.py` — the `Mouse` class: the mouse report
    buffer (`mouse_state`, a 6-entry byte list) and the two state-update
    functions `change_state_button` and `change_state_movement`;
  * `src/server/btk_server.py` — the `BTKbDevice`/`BTKbService` classes:
    profile registration (`init_bluez_profile`, `read_sdp_service_record`),
    the listen/accept sequence (`listen`) and the send path
    (`send_string` / `send_keys`).

Python machine behaviour is made explicit: `&  0xFF` on a Python `int`
becomes Euclidean remainder by 256 (Python's `&` on negative ints acts on
the infinite two's-complement representation, so `v & 0xFF == v mod 256`,
a value in `[0, 255]`).
-/

namespace EmulateHid

/-! ## Mouse report codec (`src/keyboard/mouse_client.py`) -/

/-- The six-byte mouse report buffer `self.mouse_state`, one field per list
index: `[0] = 0xA1` input-report kind, `[1] = 0x02` mouse report id,
`[2]` button byte, `[3]` Rel X, `[4]` Rel Y, `[5]` wheel. -/
structure MouseState where
  reportKind : Nat
  reportId : Nat
  buttons : Nat
  relX : Nat
  relY : Nat
  wheel : Nat
deriving Repr, DecidableEq

/-- Embeds `Mouse.__init__` (lines 33-40): `mouse_state = [0xA1, 0x02, 0x00, 0x00,
0x00, 0x00]`. -/
def mouseInit : MouseState :=
  { reportKind := 0xA1, reportId := 0x02, buttons := 0x00,
    relX := 0x00, relY := 0x00, wheel := 0x00 }

/-- The report bytes as the Python list `self.mouse_state`. -/
def MouseState.toBytes (s : MouseState) : List Nat :=
  [s.reportKind, s.reportId, s.buttons, s.relX, s.relY, s.wheel]

/-- The `event.code` values `change_state_button` distinguishes
(`ecodes.BTN_LEFT`, `ecodes.BTN_RIGHT`, `ecodes.BTN_MIDDLE`; any other key
code falls through the `if`/`elif` chain). -/
inductive ButtonCode
  | btnLeft
  | btnRight
  | btnMiddle
  | otherKey
deriving Repr, DecidableEq

/-- The `event.code` values `change_state_movement` distinguishes
(`ecodes.REL_X`, `ecodes.REL_Y`, `ecodes.REL_WHEEL`; any other relative
code falls through). -/
inductive RelCode
  | relX
  | relY
  | relWheel
  | otherRel
deriving Repr, DecidableEq

/-- Python `v & 0xFF` on an arbitrary (possibly negative) `int`: the
residue of `v` modulo 256, in `[0, 255]`. -/
def pyAnd255 (v : Int) : Nat :=
  (v % 256).toNat

/-- Embeds `Mouse.change_state_button` (lines 68-80): the button byte
`mouse_state[2]` is overwritten with `event.value`, `2 * event.value` or
`3 * event.value` according to the button code (no write for other codes),
then `mouse_state[3..5]` are zeroed.  `event.value` is the evdev key value
(`event_loop` forwards only `value < 2`, i.e. 0 = release, 1 = press). -/
def change_state_button (code : ButtonCode) (value : Nat) (s : MouseState) :
    MouseState :=
  let s' :=
    match code with
    | ButtonCode.btnLeft => { s with buttons := value }
    | ButtonCode.btnRight => { s with buttons := 2 * value }
    | ButtonCode.btnMiddle => { s with buttons := 3 * value }
    | ButtonCode.otherKey => s
  { s' with relX := 0x00, relY := 0x00, wheel := 0x00 }

/-- Embeds `Mouse.change_state_movement` (lines 83-92): `mouse_state[3..5]` are
zeroed, then the byte of the event's axis is set to `event.value & 0xFF`. -/
def change_state_movement (code : RelCode) (value : Int) (s : MouseState) :
    MouseState :=
  let s' := { s with relX := 0x00, relY := 0x00, wheel := 0x00 }
  match code with
  | RelCode.relX => { s' with relX := pyAnd255 value }
  | RelCode.relY => { s' with relY := pyAnd255 value }
  | RelCode.relWheel => { s' with wheel := pyAnd255 value }
  | RelCode.otherRel => s'

/-- The spec's clamping function, written from the spec's words
(`clamp(d, -127, 127)`): saturate the delta to the signed 8-bit motion
range.  Used to compare the spec's claimed encoding with the code's. -/
def clampSpec (d : Int) : Int :=
  max (-127) (min 127 d)

/-- A byte (0-255) read back as a signed 8-bit quantity, as the HID peer
decodes motion bytes. -/
def signed8 (b : Nat) : Int :=
  if b < 128 then (b : Int) else (b : Int) - 256

example : pyAnd255 (-5) = 251 := by decide
example : pyAnd255 200 = 200 := by decide
example : signed8 200 = -56 := by decide
example : clampSpec 200 = 127 := by decide
example :
    (change_state_movement RelCode.relX 200 mouseInit).toBytes
      = [0xA1, 0x02, 0x00, 200, 0x00, 0x00] := by decide

/-! ## Transport server (`src/server/btk_server.py`) -/

/-- Constant `BTKbDevice.P_CTRL` (line 39): the control-channel service port. -/
def P_CTRL : Nat := 17

/-- Constant `BTKbDevice.P_INTR` (line 40): the interrupt-channel service port. -/
def P_INTR : Nat := 19

/-- Constant `BTKbDevice.PROFILE_DBUS_PATH` (line 41). -/
def PROFILE_DBUS_PATH : String := "/bluez/yaptb/btkb_profile"

/-- Constant `BTKbDevice.UUID` (line 43). -/
def DEVICE_UUID : String := "00001124-0000-1000-8000-00805f9b34fb"

/-- One socket operation performed by `BTKbDevice.listen` (lines 121-139),
in the order that straight-line method executes them. -/
inductive SockAction
  | bindControl (addr : String) (port : Nat)
  | bindInterrupt (addr : String) (port : Nat)
  | listenControl (backlog : Nat)
  | listenInterrupt (backlog : Nat)
  | acceptControl
  | acceptInterrupt
deriving Repr, DecidableEq

/-- The socket operations of one call of `BTKbDevice.listen` (lines
121-139), in program order: bind control to `(MY_ADDRESS, P_CTRL)`, bind
interrupt to `(MY_ADDRESS, P_INTR)`, listen on both with backlog 1, accept
on the control socket, then accept on the interrupt socket. -/
def listenActions (addr : String) : List SockAction :=
  [SockAction.bindControl addr P_CTRL,
   SockAction.bindInterrupt addr P_INTR,
   SockAction.listenControl 1,
   SockAction.listenInterrupt 1,
   SockAction.acceptControl,
   SockAction.acceptInterrupt]

/-- The transport lifecycle states named by the spec, mapped onto
`btk_server.py`: `idle` before `listen` runs, `listening` once both
sockets are bound and listening (lines 124-133), `controlAccepted` after
`scontrol.accept()` returns (line 135), `ready` after
`sinterrupt.accept()` returns (line 138). -/
inductive MgrState
  | idle
  | listening
  | controlAccepted
  | ready
deriving Repr, DecidableEq

/-- Lifecycle events for the transport channel manager. -/
inductive MgrEvent
  | startListen
  | acceptControlConn
  | acceptInterruptConn
  | closeControl
  | closeInterrupt
deriving Repr, DecidableEq

/-- The transition function of the code.  The only transitions the source
implements are the straight-line forward path of `BTKbDevice.listen`
(lines 121-139), entered exactly once from `BTKbService.__init__`
(line 167): bind+listen, accept control, accept interrupt.  The file
contains no handler for either channel closing — no `except` clause, no
loop around `listen`, no re-invocation — so every other (state, event)
pair has no transition (`none`). -/
def managerStep (s : MgrState) (e : MgrEvent) : Option MgrState :=
  match s, e with
  | MgrState.idle, MgrEvent.startListen => some MgrState.listening
  | MgrState.listening, MgrEvent.acceptControlConn =>
      some MgrState.controlAccepted
  | MgrState.controlAccepted, MgrEvent.acceptInterruptConn =>
      some MgrState.ready
  | _, _ => none

/-- Run the manager over a sequence of events; `none` as soon as an event
arrives that the code has no transition for. -/
def managerRun (s : MgrState) : List MgrEvent → Option MgrState
  | [] => some s
  | e :: es =>
    match managerStep s e with
    | some s' => managerRun s' es
    | none => none

/-- An interrupt-channel client socket (`self.cinterrupt`): records the
payloads passed to `send`. -/
structure Channel where
  sent : List (List Nat)
deriving Repr, DecidableEq

/-- The transport-relevant state of a `BTKbDevice` object: the interrupt
client socket attribute `self.cinterrupt`, which exists only after
`listen` (line 138) has assigned it — `none` models the attribute being
absent. -/
structure BTKbDevice where
  cinterrupt : Option Channel
deriving Repr, DecidableEq

/-- Errors a send can surface.  `attributeError` is the Python
`AttributeError` raised when `self.cinterrupt` does not exist;
`noActiveSession` is the error *named by the spec* (§7) — introduced here
only so the spec's claim about it can be stated; no code path produces
it. -/
inductive PyError
  | attributeError (attr : String)
  | noActiveSession
deriving Repr, DecidableEq

/-- The whole system state the send path can observe: the client-side
pointer state (`Mouse.mouse_state`) and the server-side device. -/
structure SysState where
  mouse : MouseState
  dev : BTKbDevice
deriving Repr, DecidableEq

/-- Embeds `BTKbDevice.send_string` (lines 143-146): `self.cinterrupt.send(message)`.
If the `cinterrupt` attribute is absent (listen never completed, so no
session is ready) the attribute lookup raises `AttributeError`; otherwise
the payload is written to the interrupt channel.  Returns the state after
the call together with the exception, if any — an exception leaves every
attribute as it was. -/
def send_string (dev : BTKbDevice) (message : List Nat) :
    BTKbDevice × Option PyError :=
  match dev.cinterrupt with
  | none => (dev, some (PyError.attributeError "cinterrupt"))
  | some ch =>
      ({ dev with cinterrupt := some { sent := ch.sent ++ [message] } }, none)

/-- Embeds `BTKbService.send_keys` (lines 170-175) at system level: it only
builds the byte string from `keys` and calls `self.device.send_string`;
it never touches the client's `mouse_state` (which lives in the other
process, `mouse_client.py`). -/
def send_keys (sys : SysState) (keys : List Nat) :
    SysState × Option PyError :=
  let r := send_string sys.dev keys
  ({ sys with dev := r.1 }, r.2)

/-! ## Profile registration (`BTKbDevice.init_bluez_profile`) -/

/-- The `opts` dictionary built at lines 91-96. -/
structure ProfileOptions where
  serviceRecord : String
  role : String
  requireAuthentication : Bool
  requireAuthorization : Bool
deriving Repr, DecidableEq

/-- The `RegisterProfile(PROFILE_DBUS_PATH, UUID, opts)` call issued at
line 101. -/
structure RegisterProfileCall where
  path : String
  uuid : String
  opts : ProfileOptions
deriving Repr, DecidableEq

/-- Embeds `BTKbDevice.read_sdp_service_record` (lines 105-114): open the sdp
record file and return its contents; if the open fails (`none` input),
`sys.exit` with the message at line 112.  The filesystem is external, so
the function takes the file's contents when readable. -/
def read_sdp_service_record (file : Option String) : Except String String :=
  match file with
  | none => Except.error "Could not open the sdp record. Exiting..."
  | some contents => Except.ok contents

/-- Embeds `BTKbDevice.init_bluez_profile` (lines 84-102): read the service
record, build `opts = {ServiceRecord: record, Role: "server",
RequireAuthentication: False, RequireAuthorization: False}` and register
the profile at `PROFILE_DBUS_PATH` under `UUID`. -/
def init_bluez_profile (file : Option String) :
    Except String RegisterProfileCall :=
  match read_sdp_service_record file with
  | Except.error e => Except.error e
  | Except.ok service_record =>
      Except.ok
        { path := PROFILE_DBUS_PATH,
          uuid := DEVICE_UUID,
          opts :=
            { serviceRecord := service_record,
              role := "server",
              requireAuthentication := false,
              requireAuthorization := false } }

/-! ## Claims -/

/-- C1, counterexample.  The claim says the motion byte for the updated
axis equals `clamp(d, -127, 127)` and never wraps sign for `|d| > 127`.
At `d = 200` the code (`event.value & 0xFF`, line 88) writes 200, while
`clamp(200, -127, 127) = 127`; byte 200 decodes as the signed 8-bit value
-56, so the sign has wrapped for a positive delta. -/
theorem C1_counterexample :
    (change_state_movement RelCode.relX 200 mouseInit).relX = 200 ∧
    clampSpec 200 = 127 ∧
    (change_state_movement RelCode.relX 200 mouseInit).relX ≠
      Int.toNat (clampSpec 200) ∧
    signed8 ((change_state_movement RelCode.relX 200 mouseInit).relX) = -56 := by
  decide

/-- C1, amended.  For every `RelativeMotion` event with raw delta `d` —
whichever of the three axes (X, Y, Wheel) it updates — the value written
into the motion byte of that axis is `d & 0xFF`, the residue of `d`
modulo 256: wraparound, not saturation; at `d = 200` (which exceeds 127)
the stored byte decodes as the sign-inverted value -56. -/
theorem C1_amended (d : Int) (s : MouseState) :
    (change_state_movement RelCode.relX d s).relX = pyAnd255 d ∧
    (change_state_movement RelCode.relY d s).relY = pyAnd255 d ∧
    (change_state_movement RelCode.relWheel d s).wheel = pyAnd255 d ∧
    pyAnd255 d = (d % 256).toNat ∧
    signed8 (pyAnd255 200) = -56 :=
  ⟨rfl, rfl, rfl, rfl, by decide⟩

/-- C1, witness for the amended theorem at `d = 200` from the initial
state. -/
theorem C1_amended_witness :
    (change_state_movement RelCode.relX 200 mouseInit).relX = pyAnd255 200 ∧
    (change_state_movement RelCode.relY 200 mouseInit).relY = pyAnd255 200 ∧
    (change_state_movement RelCode.relWheel 200 mouseInit).wheel =
      pyAnd255 200 :=
  ⟨(C1_amended 200 mouseInit).1, (C1_amended 200 mouseInit).2.1,
    (C1_amended 200 mouseInit).2.2.1⟩

/-- C2: the claim says the buttons field is a bitmask with one distinct
bit per button and that decoding it recovers the button set.  The code
(`change_state_button`, lines 68-80) instead overwrites the whole byte:
a middle press stores `3 * 1 = 3`, which sets bits 0 and 1 — the left and
right positions of the code's own "Bit array for Buttons" comment
(line 36) — and no distinct middle bit; and after a left press followed
by a right press the byte is 2, so the left bit is lost and the pressed
set {left, right} cannot be recovered. -/
theorem C2_code_eval :
    (change_state_button ButtonCode.btnMiddle 1 mouseInit).buttons = 3 ∧
    Nat.testBit 3 0 = true ∧ Nat.testBit 3 1 = true ∧
    Nat.testBit 3 2 = false ∧
    (change_state_button ButtonCode.btnRight 1
        (change_state_button ButtonCode.btnLeft 1 mouseInit)).buttons = 2 ∧
    Nat.testBit 2 0 = false := by
  decide

/-- C3, counterexample.  The claim says `send` with no ready session
returns the `NoActiveSession` error.  With no interrupt channel accepted
(`cinterrupt` attribute absent), `send_keys` surfaces the Python
`AttributeError` from `self.cinterrupt` (line 146), not a
`NoActiveSession` result. -/
theorem C3_counterexample :
    (send_keys { mouse := mouseInit, dev := { cinterrupt := none } }
        [0xA1, 0x02, 0x00, 0x00, 0x00, 0x00]).2 ≠
      some PyError.noActiveSession ∧
    (send_keys { mouse := mouseInit, dev := { cinterrupt := none } }
        [0xA1, 0x02, 0x00, 0x00, 0x00, 0x00]).2 =
      some (PyError.attributeError "cinterrupt") := by
  constructor
  · intro h
    simp [send_keys, send_string] at h
  · rfl

/-- C3, amended.  Whenever `send` is called while no session is ready
(the `cinterrupt` attribute does not exist), it raises `AttributeError`
— not the spec's `NoActiveSession` — and leaves the entire state, in
particular the pointer state, unchanged. -/
theorem C3_amended (sys : SysState) (keys : List Nat)
    (h : sys.dev.cinterrupt = none) :
    send_keys sys keys = (sys, some (PyError.attributeError "cinterrupt")) ∧
    (send_keys sys keys).1.mouse = sys.mouse := by
  obtain ⟨m, ⟨ci⟩⟩ := sys
  cases ci with
  | none => exact ⟨rfl, rfl⟩
  | some ch => exact absurd h (by simp)

/-- C3, witness for the amended theorem at a concrete system with no
accepted interrupt channel. -/
theorem C3_amended_witness :
    send_keys { mouse := mouseInit, dev := { cinterrupt := none } } [0x00] =
      ({ mouse := mouseInit, dev := { cinterrupt := none } },
        some (PyError.attributeError "cinterrupt")) :=
  (C3_amended { mouse := mouseInit, dev := { cinterrupt := none } } [0x00]
    rfl).1

/-- C4, counterexample.  The claim says that from `Ready` the closing of
either channel returns the manager to `Idle`/listening and a later
two-accept reaches `Ready` again.  The code reaches `ready` by the
straight-line accepts of `listen`, but has no transition at all out of
`ready`: closing a channel is unhandled (`listen` is called exactly once,
at line 167, and no close handler exists), so the step on `closeControl`
or `closeInterrupt` is `none`, not a return to `idle`. -/
theorem C4_counterexample :
    managerRun MgrState.idle
      [MgrEvent.startListen, MgrEvent.acceptControlConn,
       MgrEvent.acceptInterruptConn] = some MgrState.ready ∧
    managerStep MgrState.ready MgrEvent.closeControl ≠ some MgrState.idle ∧
    managerStep MgrState.ready MgrEvent.closeInterrupt ≠ some MgrState.idle ∧
    managerStep MgrState.ready MgrEvent.closeControl = none ∧
    managerStep MgrState.ready MgrEvent.closeInterrupt = none := by
  decide

/-- C4, amended.  The manager follows the forward path `idle` →
`listening` → `controlAccepted` → `ready` exactly once; from `ready` no
event has a transition — channel closure is not handled, the manager
never returns to `idle` or to listening, and no second accept cycle
exists. -/
theorem C4_amended :
    managerStep MgrState.idle MgrEvent.startListen = some MgrState.listening ∧
    managerStep MgrState.listening MgrEvent.acceptControlConn =
      some MgrState.controlAccepted ∧
    managerStep MgrState.controlAccepted MgrEvent.acceptInterruptConn =
      some MgrState.ready ∧
    (∀ e : MgrEvent, managerStep MgrState.ready e = none) := by
  refine ⟨rfl, rfl, rfl, ?_⟩
  intro e
  cases e <;> rfl

/-- C5, counterexample.  The claim says `RelativeMotion{X, +200}` from the
initial state yields the report `[0xA1, 0x02, 0x00, 127, 0, 0]`.  The code
stores `200 & 0xFF = 200 = 0xC8`, not the saturated 127, so the first
report differs from the claimed bytes. -/
theorem C5_counterexample :
    (change_state_movement RelCode.relX 200 mouseInit).toBytes ≠
      [0xA1, 0x02, 0x00, 127, 0x00, 0x00] ∧
    (change_state_movement RelCode.relX 200 mouseInit).toBytes =
      [0xA1, 0x02, 0x00, 0xC8, 0x00, 0x00] := by
  decide

/-- C5, amended.  Starting from the initial pointer state (buttons = 0,
no pending deltas), `RelativeMotion{X, +200}` then `RelativeMotion{Y, -5}`
produce the reports `[0xA1, 0x02, 0x00, 0xC8, 0x00, 0x00]` (X byte is the
wrapped 200, not the saturated 127) and then
`[0xA1, 0x02, 0x00, 0x00, 0xFB, 0x00]`. -/
theorem C5_amended :
    (change_state_movement RelCode.relX 200 mouseInit).toBytes =
      [0xA1, 0x02, 0x00, 0xC8, 0x00, 0x00] ∧
    (change_state_movement RelCode.relY (-5)
        (change_state_movement RelCode.relX 200 mouseInit)).toBytes =
      [0xA1, 0x02, 0x00, 0x00, 0xFB, 0x00] := by
  decide

/-- C6: in every listen/accept cycle, the accept on the control socket
occurs strictly before the accept on the interrupt socket (positions 4
and 5 of the socket-operation sequence of `listen`), and the interrupt
accept does occur — so the interrupt channel is never accepted first. -/
theorem C6_accept_order (addr : String) :
    ∃ i j : Nat,
      (listenActions addr).findIdx?
          (fun a => a == SockAction.acceptControl) = some i ∧
      (listenActions addr).findIdx?
          (fun a => a == SockAction.acceptInterrupt) = some j ∧
      i < j := by
  refine ⟨4, 5, ?_, ?_, by decide⟩ <;> rfl

/-- C7: in every listen cycle the control socket is bound to port
`P_CTRL` and the interrupt socket to port `P_INTR`; a control bind occurs
on port `p` exactly when `p = 17`, an interrupt bind exactly when
`p = 19`, and the two constants are 17 and 19. -/
theorem C7_bind_ports (addr : String) :
    (∀ p : Nat,
      (SockAction.bindControl addr p ∈ listenActions addr) ↔ p = 17) ∧
    (∀ p : Nat,
      (SockAction.bindInterrupt addr p ∈ listenActions addr) ↔ p = 19) ∧
    P_CTRL = 17 ∧ P_INTR = 19 := by
  refine ⟨?_, ?_, rfl, rfl⟩ <;>
    · intro p
      simp [listenActions, P_CTRL, P_INTR]

/-- C8: whenever the service record is read successfully, the profile is
registered with exactly the options `ServiceRecord` = the loaded record,
`Role` = "server", `RequireAuthentication` = false,
`RequireAuthorization` = false (and at the fixed dbus path and UUID). -/
theorem C8_register_options (file : Option String) (record : String)
    (h : read_sdp_service_record file = Except.ok record) :
    init_bluez_profile file =
      Except.ok
        { path := PROFILE_DBUS_PATH,
          uuid := DEVICE_UUID,
          opts :=
            { serviceRecord := record,
              role := "server",
              requireAuthentication := false,
              requireAuthorization := false } } := by
  unfold init_bluez_profile
  rw [h]

/-- C8, witness at a concrete readable descriptor file. -/
theorem C8_register_options_witness :
    init_bluez_profile (some "sdp-record-xml") =
      Except.ok
        { path := PROFILE_DBUS_PATH,
          uuid := DEVICE_UUID,
          opts :=
            { serviceRecord := "sdp-record-xml",
              role := "server",
              requireAuthentication := false,
              requireAuthorization := false } } :=
  C8_register_options (some "sdp-record-xml") "sdp-record-xml" rfl

/-- C9: for every `RelativeMotion` event with raw delta `d`, the motion
byte stored for the updated axis (X, Y or Wheel) equals `d` modulo 256 —
the low 8 bits of `d` in two's complement — for every integer `d`,
including `d` outside `[-127, 127]`; the stored value lies in
`[0, 255]`. -/
theorem C9_motion_wraps (d : Int) (s : MouseState) :
    (change_state_movement RelCode.relX d s).relX = (d % 256).toNat ∧
    (change_state_movement RelCode.relY d s).relY = (d % 256).toNat ∧
    (change_state_movement RelCode.relWheel d s).wheel = (d % 256).toNat ∧
    0 ≤ d % 256 ∧ d % 256 < 256 :=
  ⟨rfl, rfl, rfl, Int.emod_nonneg d (by decide),
    Int.emod_lt_of_pos d (by decide)⟩

/-- C10: the initialized report buffer starts with bytes `0xA1, 0x02`,
and both codec operations (`change_state_button`,
`change_state_movement`) leave those two header bytes unchanged for every
event and state — so every report sent begins with `0xA1, 0x02`. -/
theorem C10_header_invariant :
    mouseInit.reportKind = 0xA1 ∧ mouseInit.reportId = 0x02 ∧
    (∀ (c : ButtonCode) (v : Nat) (s : MouseState),
      (change_state_button c v s).reportKind = s.reportKind ∧
      (change_state_button c v s).reportId = s.reportId) ∧
    (∀ (c : RelCode) (d : Int) (s : MouseState),
      (change_state_movement c d s).reportKind = s.reportKind ∧
      (change_state_movement c d s).reportId = s.reportId) := by
  refine ⟨rfl, rfl, ?_, ?_⟩
  · intro c v s
    cases c <;> exact ⟨rfl, rfl⟩
  · intro c d s
    cases c <;> exact ⟨rfl, rfl⟩

end EmulateHid
